import Mathlib

/-!
# Verification of the two-phase customization orchestrator (`web/index.js`)

Shallow embedding of the request handlers of the delivery/payment
customization backend:

* `handleUserError` — the shared user-error helper (lines 63–70);
* `createPaymentCustomization` / `createDeliveryCustomization` — the two
  two-phase (create, then metafield-set) handlers (lines 91–165, 167–242);
* `apiGraphqlPost` — the `requestName` dispatcher of `POST /api/graphql`
  (lines 72–89);
* a model of `JSON.stringify` on the two-string-field configuration
  objects, together with a parser proving the serialization lossless.

The remote GraphQL client is modelled by the outcome of each of the (at
most two) `graphqlClient.query` calls: either a result value, a raised
`GraphqlQueryError` carrying its `response` detail, or a raised exception
of any other type.  A handler run records the create-call arguments, the
metafield-set call (if Step 2 was reached) with its arguments, and the
observable outcome: an HTTP response sent, or an exception propagating
out of the handler.
-/

/-- Payload of a payment-customization request (`req.body`); per the data
model every field is a string. -/
structure PaymentPayload where
  functionId : String
  paymentMethod : String
  cartTotal : String
deriving DecidableEq

/-- Payload of a delivery-customization request (`req.body`). -/
structure DeliveryPayload where
  functionId : String
  zip : String
  message : String
deriving DecidableEq

/-- Result object of a create mutation
(`paymentCustomizationCreate` / `deliveryCustomizationCreate`).
`record` is the nested `paymentCustomization` / `deliveryCustomization`
object, abstracted to its `id`; `none` models the property being
absent/null in the response.  `userErrors` is the list of user-error
`message` strings; `none` models an absent (`undefined`) property. -/
structure CreateResult where
  record : Option String
  userErrors : Option (List String)
deriving DecidableEq

/-- Result object of the `metafieldsSet` mutation: created metafield ids
and the user-error `message` strings.  As a JavaScript object it has
exactly the properties `metafields` and `userErrors` — in particular no
`length` property. -/
structure MetafieldsSetResult where
  metafieldIds : List String
  userErrors : List String
deriving DecidableEq

/-- The JavaScript value handed to `handleUserError` as first argument at
its three call shapes: `undefined` (an absent `userErrors` property), an
array of user errors (abstracted to their `message` strings), or a plain
object with no `length` property — the whole `metafieldsSet` result, as
passed on lines 153 and 230. -/
inductive UEArg where
  | undef : UEArg
  | arr : List String → UEArg
  | obj : MetafieldsSetResult → UEArg
deriving DecidableEq

/-- `userErrors.map((error) => error.message).join(' ')`. -/
def joinMessages (msgs : List String) : String :=
  String.intercalate " " msgs

/-- `handleUserError(userErrors, res)` (lines 63–70).  Returns `some msg`
exactly when the JS function executes
`res.status(500).send({ error: msg })` and returns `true`; `none` when it
returns `false` without touching `res`.  The JS guard is
`userErrors && userErrors.length > 0`:

* `undefined` is falsy, so the guard fails;
* an array (even an empty one) is truthy and its `length` is its number
  of elements, so the guard holds iff the array is non-empty;
* a plain object such as the `metafieldsSet` result is truthy but has no
  `length` property, so `userErrors.length` is `undefined` and
  `undefined > 0` evaluates to `false` — the guard fails. -/
def handleUserError : UEArg → Option String
  | .undef => none
  | .arr msgs => if msgs.length > 0 then some (joinMessages msgs) else none
  | .obj _ => none

/-- The JS value of a possibly-absent `userErrors` property. -/
def ueArgOfOpt : Option (List String) → UEArg
  | none => .undef
  | some msgs => .arr msgs

/-- An exception propagating uncaught out of a handler.  `typeError` is
the `TypeError` raised by dereferencing a missing nested record
(`createResult.paymentCustomization.id`); `clientOther` is an exception
raised by the client that is not a `GraphqlQueryError`.  Both fail the
`error instanceof GraphqlQueryError` test and are re-thrown (lines
158–160, 235–237). -/
inductive JsError where
  | typeError : JsError
  | clientOther : JsError
deriving DecidableEq

/-- Outcome of one `graphqlClient.query` call: a parsed result, a raised
`GraphqlQueryError` carrying its `response` detail, or a raised exception
of any other type. -/
inductive QueryOutcome (α : Type) where
  | ok : α → QueryOutcome α
  | raiseGql : String → QueryOutcome α
  | raiseOther : QueryOutcome α
deriving DecidableEq

/-- An HTTP response sent by a handler: `res.status(200).send()` (empty
body), `res.status(500).send({ error: message })` from
`handleUserError`, or `res.status(500).send({ error: error.response })`
from the `GraphqlQueryError` branch. -/
inductive Response where
  | ok200 : Response
  | err500 : String → Response
  | err500Response : String → Response
deriving DecidableEq

/-- The HTTP status code of a response. -/
def Response.statusCode : Response → Nat
  | .ok200 => 200
  | .err500 _ => 500
  | .err500Response _ => 500

/-- The `error` field of the response body; `none` for the empty body of
`res.status(200).send()`. -/
def Response.errorBody : Response → Option String
  | .ok200 => none
  | .err500 m => some m
  | .err500Response d => some d

/-- Observable end of a handler invocation: a response was sent, or an
exception escaped the handler (was thrown past the `catch`). -/
inductive HandlerOutcome where
  | responded : Response → HandlerOutcome
  | threw : JsError → HandlerOutcome
deriving DecidableEq

/-- Arguments of a create mutation (`variables.input`). -/
structure CreateCall where
  functionId : String
  title : String
  enabled : Bool
deriving DecidableEq

/-- Arguments of the `metafieldsSet` mutation: the single metafield
written (ownerId, namespace, key, value, type). -/
structure MetafieldCall where
  ownerId : String
  nameSpace : String
  key : String
  value : String
  valueType : String
deriving DecidableEq

/-- Trace of one handler invocation: the create call always issued first,
the metafield-set call (`none` when Step 2 was never reached), and the
outcome. -/
structure HandlerRun where
  createCall : CreateCall
  metafieldCall : Option MetafieldCall
  outcome : HandlerOutcome
deriving DecidableEq

/-! ## `JSON.stringify` on the two-field configuration objects

Both handlers serialize a two-string-field object literal with
`JSON.stringify` (lines 145–148 and 222–225) and send it as the metafield
`value`.  We model the serializer character-exactly — `ECMA-404` string
escaping as `JSON.stringify` performs it: `"` and `\` are backslash
escaped, the control characters BS HT LF FF CR get their short escapes,
the remaining control characters (code points below 32) become `\u00XX`
with lowercase hex, and everything else is copied verbatim; the object is
rendered without whitespace.  A parser for this grammar is defined below
and proved to invert the serializer, establishing the round-trip
property. -/

/-- Lowercase hexadecimal digit for `n < 16` (`0`–`9`, then `a`–`f`). -/
def lowHexDigit (n : Nat) : Char :=
  Char.ofNat (if n < 10 then 48 + n else 87 + n)

/-- `JSON.stringify` escaping of one character. -/
def escapeChar (c : Char) : List Char :=
  if c = '"' then ['\\', '"']
  else if c = '\\' then ['\\', '\\']
  else if c = Char.ofNat 8 then ['\\', 'b']
  else if c = '\t' then ['\\', 't']
  else if c = '\n' then ['\\', 'n']
  else if c = Char.ofNat 12 then ['\\', 'f']
  else if c = Char.ofNat 13 then ['\\', 'r']
  else if c.toNat < 32 then
    '\\' :: 'u' :: '0' :: '0' :: [lowHexDigit (c.toNat / 16), lowHexDigit (c.toNat % 16)]
  else [c]

/-- Escape every character of a string body. -/
def escapeList : List Char → List Char
  | [] => []
  | c :: cs => escapeChar c ++ escapeList cs

/-- A JSON string literal: the escaped body between double quotes. -/
def jsonQuoteList (l : List Char) : List Char :=
  '"' :: (escapeList l ++ ['"'])

/-- The characters of `JSON.stringify` applied to an object literal with
two string-valued fields: `{"k1":"v1","k2":"v2"}` with no whitespace. -/
def jsonStringifyTwoList (k1 v1 k2 v2 : String) : List Char :=
  '\x7b' :: (jsonQuoteList k1.data ++
    ':' :: (jsonQuoteList v1.data ++
      ',' :: (jsonQuoteList k2.data ++
        ':' :: (jsonQuoteList v2.data ++ ['\x7d']))))

/-- `JSON.stringify({k1: v1, k2: v2})` for string values. -/
def jsonStringifyTwo (k1 v1 k2 v2 : String) : String :=
  String.mk (jsonStringifyTwoList k1 v1 k2 v2)

/-- `JSON.stringify({paymentMethodName: payload.paymentMethod, cartTotal:
payload.cartTotal})` — the payment configuration value (lines 145–148). -/
def paymentConfigValue (p : PaymentPayload) : String :=
  jsonStringifyTwo "paymentMethodName" p.paymentMethod "cartTotal" p.cartTotal

/-- `JSON.stringify({zip: payload.zip, message: payload.message})` — the
delivery configuration value (lines 222–225). -/
def deliveryConfigValue (p : DeliveryPayload) : String :=
  jsonStringifyTwo "zip" p.zip "message" p.message

/-! ## The handlers -/

/-- The create-mutation input of the payment flow (lines 107–113), with
the interpolated title. -/
def paymentCreateCall (p : PaymentPayload) : CreateCall :=
  { functionId := p.functionId
    title := "Hide " ++ p.paymentMethod ++ " if cart total is larger than " ++ p.cartTotal
    enabled := true }

/-- The `metafieldsSet` arguments of the payment flow (lines 125–150). -/
def paymentMetafieldCall (p : PaymentPayload) (cid : String) : MetafieldCall :=
  { ownerId := cid
    nameSpace := "$app:payment-customization"
    key := "function-configuration"
    value := paymentConfigValue p
    valueType := "json" }

/-- The create-mutation input of the delivery flow (lines 184–190). -/
def deliveryCreateCall (p : DeliveryPayload) : CreateCall :=
  { functionId := p.functionId
    title := "Display message for postal code: " ++ p.zip
    enabled := true }

/-- The `metafieldsSet` arguments of the delivery flow (lines 202–227). -/
def deliveryMetafieldCall (p : DeliveryPayload) (cid : String) : MetafieldCall :=
  { ownerId := cid
    nameSpace := "$app:delivery-customization"
    key := "function-configuration"
    value := deliveryConfigValue p
    valueType := "json" }

/-- `createPaymentCustomization` (lines 91–165).  Control flow of the
source, step by step: issue the create mutation (its outcome is
`createOutcome`); on a `GraphqlQueryError` respond 500 with
`error.response`, on any other exception re-throw; otherwise run
`handleUserError(createResult.userErrors, res)` and stop if it responded;
then dereference `createResult.paymentCustomization.id` — a missing
nested record raises a `TypeError`, which is not a `GraphqlQueryError`
and is re-thrown by the `catch` (lines 158–160); then issue the
`metafieldsSet` mutation and run
`handleUserError(metafieldResult, res)` — note the whole result object,
not `metafieldResult.userErrors`, is passed (line 153); finally respond
`res.status(200).send()`. -/
def createPaymentCustomization (p : PaymentPayload)
    (createOutcome : QueryOutcome CreateResult)
    (metafieldOutcome : QueryOutcome MetafieldsSetResult) : HandlerRun :=
  match createOutcome with
  | .raiseGql d =>
    { createCall := paymentCreateCall p, metafieldCall := none
      outcome := .responded (.err500Response d) }
  | .raiseOther =>
    { createCall := paymentCreateCall p, metafieldCall := none
      outcome := .threw .clientOther }
  | .ok createResult =>
    match handleUserError (ueArgOfOpt createResult.userErrors) with
    | some msg =>
      { createCall := paymentCreateCall p, metafieldCall := none
        outcome := .responded (.err500 msg) }
    | none =>
      match createResult.record with
      | none =>
        { createCall := paymentCreateCall p, metafieldCall := none
          outcome := .threw .typeError }
      | some cid =>
        match metafieldOutcome with
        | .raiseGql d =>
          { createCall := paymentCreateCall p
            metafieldCall := some (paymentMetafieldCall p cid)
            outcome := .responded (.err500Response d) }
        | .raiseOther =>
          { createCall := paymentCreateCall p
            metafieldCall := some (paymentMetafieldCall p cid)
            outcome := .threw .clientOther }
        | .ok metafieldResult =>
          match handleUserError (.obj metafieldResult) with
          | some msg =>
            { createCall := paymentCreateCall p
              metafieldCall := some (paymentMetafieldCall p cid)
              outcome := .responded (.err500 msg) }
          | none =>
            { createCall := paymentCreateCall p
              metafieldCall := some (paymentMetafieldCall p cid)
              outcome := .responded .ok200 }

/-- `createDeliveryCustomization` (lines 167–242); structurally identical
to the payment flow, including the Step-2 check passing the whole
`metafieldsSet` result object to `handleUserError` (line 230). -/
def createDeliveryCustomization (p : DeliveryPayload)
    (createOutcome : QueryOutcome CreateResult)
    (metafieldOutcome : QueryOutcome MetafieldsSetResult) : HandlerRun :=
  match createOutcome with
  | .raiseGql d =>
    { createCall := deliveryCreateCall p, metafieldCall := none
      outcome := .responded (.err500Response d) }
  | .raiseOther =>
    { createCall := deliveryCreateCall p, metafieldCall := none
      outcome := .threw .clientOther }
  | .ok createResult =>
    match handleUserError (ueArgOfOpt createResult.userErrors) with
    | some msg =>
      { createCall := deliveryCreateCall p, metafieldCall := none
        outcome := .responded (.err500 msg) }
    | none =>
      match createResult.record with
      | none =>
        { createCall := deliveryCreateCall p, metafieldCall := none
          outcome := .threw .typeError }
      | some cid =>
        match metafieldOutcome with
        | .raiseGql d =>
          { createCall := deliveryCreateCall p
            metafieldCall := some (deliveryMetafieldCall p cid)
            outcome := .responded (.err500Response d) }
        | .raiseOther =>
          { createCall := deliveryCreateCall p
            metafieldCall := some (deliveryMetafieldCall p cid)
            outcome := .threw .clientOther }
        | .ok metafieldResult =>
          match handleUserError (.obj metafieldResult) with
          | some msg =>
            { createCall := deliveryCreateCall p
              metafieldCall := some (deliveryMetafieldCall p cid)
              outcome := .responded (.err500 msg) }
          | none =>
            { createCall := deliveryCreateCall p
              metafieldCall := some (deliveryMetafieldCall p cid)
              outcome := .responded .ok200 }

/-! ## The dispatcher -/

/-- Result of the `POST /api/graphql` route: which handler ran (with its
run trace), or the silent fall-through of the `default: return;` branch. -/
inductive RouteResult where
  | ranDelivery : HandlerRun → RouteResult
  | ranPayment : HandlerRun → RouteResult
  | noop : RouteResult
deriving DecidableEq

/-- The `switch (requestName)` dispatch (lines 81–88).  The would-be runs
of the two handlers are passed in; only the branch selected by
`requestName` observes one. -/
def apiGraphqlPost (requestName : String)
    (deliveryRun paymentRun : HandlerRun) : RouteResult :=
  if requestName = "createDeliveryCustomization" then .ranDelivery deliveryRun
  else if requestName = "createPaymentCustomization" then .ranPayment paymentRun
  else .noop

/-- The response the route sent, if any. -/
def RouteResult.sentResponse : RouteResult → Option Response
  | .ranDelivery r =>
    match r.outcome with
    | .responded resp => some resp
    | .threw _ => none
  | .ranPayment r =>
    match r.outcome with
    | .responded resp => some resp
    | .threw _ => none
  | .noop => none

/-- The exception the route let escape, if any. -/
def RouteResult.threwError : RouteResult → Option JsError
  | .ranDelivery r =>
    match r.outcome with
    | .responded _ => none
    | .threw e => some e
  | .ranPayment r =>
    match r.outcome with
    | .responded _ => none
    | .threw e => some e
  | .noop => none

/-- Whether the route issued any remote mutation (a handler that runs
always issues the create mutation first). -/
def RouteResult.issuedAnyMutation : RouteResult → Bool
  | .ranDelivery _ => true
  | .ranPayment _ => true
  | .noop => false

/-! ## A parser inverting the serializer -/

/-- Value of a hexadecimal digit character (lowercase letters), as the
serializer emits them. -/
def hexVal (c : Char) : Option Nat :=
  if 48 ≤ c.toNat ∧ c.toNat ≤ 57 then some (c.toNat - 48)
  else if 97 ≤ c.toNat ∧ c.toNat ≤ 102 then some (c.toNat - 87)
  else none

/-- The single-character JSON escapes. -/
def unescapeChar (e : Char) : Option Char :=
  if e = '"' then some '"'
  else if e = '\\' then some '\\'
  else if e = '/' then some '/'
  else if e = 'b' then some (Char.ofNat 8)
  else if e = 't' then some '\t'
  else if e = 'n' then some '\n'
  else if e = 'f' then some (Char.ofNat 12)
  else if e = 'r' then some '\r'
  else none

/-- Parse the body of a JSON string up to (and consuming) its closing
quote; returns the decoded characters and the remaining input. -/
def parseStrAux : List Char → Option (List Char × List Char)
  | [] => none
  | c :: cs =>
    if c = '"' then some ([], cs)
    else if c = '\\' then
      match cs with
      | [] => none
      | e :: rest =>
        if e = 'u' then
          match rest with
          | h1 :: h2 :: h3 :: h4 :: rest2 =>
            match hexVal h1, hexVal h2, hexVal h3, hexVal h4 with
            | some n1, some n2, some n3, some n4 =>
              match parseStrAux rest2 with
              | some (v, r) =>
                some (Char.ofNat (((n1 * 16 + n2) * 16 + n3) * 16 + n4) :: v, r)
              | none => none
            | _, _, _, _ => none
          | _ => none
        else
          match unescapeChar e with
          | some u =>
            match parseStrAux rest with
            | some (v, r) => some (u :: v, r)
            | none => none
          | none => none
    else
      match parseStrAux cs with
      | some (v, r) => some (c :: v, r)
      | none => none

/-- Parse a complete JSON string literal (leading quote included). -/
def parseJsonString : List Char → Option (List Char × List Char)
  | [] => none
  | c :: cs => if c = '"' then parseStrAux cs else none

/-- Consume one expected character. -/
def expectChar (c : Char) : List Char → Option (List Char)
  | [] => none
  | x :: xs => if x = c then some xs else none

/-- Parse `{"k1":"v1","k2":"v2"}` into its two key/value pairs. -/
def parseConfigList (l : List Char) : Option ((String × String) × (String × String)) :=
  match l with
  | [] => none
  | c0 :: r0 =>
    if c0 = '\x7b' then
      match parseJsonString r0 with
      | none => none
      | some (k1, r1) =>
        match expectChar ':' r1 with
        | none => none
        | some r2 =>
          match parseJsonString r2 with
          | none => none
          | some (v1, r3) =>
            match expectChar ',' r3 with
            | none => none
            | some r4 =>
              match parseJsonString r4 with
              | none => none
              | some (k2, r5) =>
                match expectChar ':' r5 with
                | none => none
                | some r6 =>
                  match parseJsonString r6 with
                  | none => none
                  | some (v2, r7) =>
                    if r7 = ['\x7d'] then
                      some ((String.mk k1, String.mk v1), (String.mk k2, String.mk v2))
                    else none
    else none

/-- Deserializer for the two-field configuration value. -/
def parseConfigPair (s : String) : Option ((String × String) × (String × String)) :=
  parseConfigList s.data

/-! ## Round-trip lemmas -/

/-- Decoding a serializer-emitted hex digit gives the digit back. -/
theorem hexVal_lowHexDigit : ∀ n, n < 16 → hexVal (lowHexDigit n) = some n := by
  decide

/-- The string-body parser inverts the escaper, whatever follows the
closing quote. -/
theorem parseStrAux_escapeList (v : List Char) :
    ∀ rest : List Char, parseStrAux (escapeList v ++ '"' :: rest) = some (v, rest) := by
  induction v with
  | nil =>
    intro rest
    rw [escapeList, List.nil_append, parseStrAux.eq_def]
    simp
  | cons c cs ih =>
    intro rest
    rw [escapeList, List.append_assoc]
    unfold escapeChar
    split
    · next h =>
      subst h
      rw [List.cons_append, List.cons_append, List.nil_append, parseStrAux.eq_def]
      simp [unescapeChar, ih]
    · split
      · next h =>
        subst h
        rw [List.cons_append, List.cons_append, List.nil_append, parseStrAux.eq_def]
        simp [unescapeChar, ih]
      · split
        · next h =>
          subst h
          rw [List.cons_append, List.cons_append, List.nil_append, parseStrAux.eq_def]
          simp [unescapeChar, ih]
        · split
          · next h =>
            subst h
            rw [List.cons_append, List.cons_append, List.nil_append, parseStrAux.eq_def]
            simp [unescapeChar, ih]
          · split
            · next h =>
              subst h
              rw [List.cons_append, List.cons_append, List.nil_append, parseStrAux.eq_def]
              simp [unescapeChar, ih]
            · split
              · next h =>
                subst h
                rw [List.cons_append, List.cons_append, List.nil_append, parseStrAux.eq_def]
                simp [unescapeChar, ih]
              · split
                · next h =>
                  subst h
                  rw [List.cons_append, List.cons_append, List.nil_append, parseStrAux.eq_def]
                  simp [unescapeChar, ih]
                · split
                  · next hlt =>
                    have hdiv : c.toNat / 16 < 16 := by omega
                    have hmod : c.toNat % 16 < 16 := by omega
                    have h0 : hexVal '0' = some 0 := by decide
                    have harith : c.toNat / 16 * 16 + c.toNat % 16 = c.toNat := by omega
                    simp only [List.cons_append, List.nil_append]
                    rw [parseStrAux.eq_def]
                    simp [h0, hexVal_lowHexDigit _ hdiv, hexVal_lowHexDigit _ hmod,
                      ih, harith, Char.ofNat_toNat]
                  · next h1 h2 _ _ _ _ _ _ =>
                    rw [List.cons_append, List.nil_append, parseStrAux.eq_def]
                    simp only []
                    rw [if_neg h1, if_neg h2, ih]

/-- Parsing a serialized string literal recovers its characters. -/
theorem parseJsonString_quote (l tail : List Char) :
    parseJsonString (jsonQuoteList l ++ tail) = some (l, tail) := by
  rw [jsonQuoteList, List.cons_append, List.append_assoc, List.cons_append,
    List.nil_append, parseJsonString]
  simp [parseStrAux_escapeList]

/-- Round trip at the character-list level: the two-field parser inverts
the two-field serializer. -/
theorem parseConfigList_stringify (k1 v1 k2 v2 : String) :
    parseConfigList (jsonStringifyTwoList k1 v1 k2 v2) = some ((k1, v1), (k2, v2)) := by
  rw [jsonStringifyTwoList, parseConfigList]
  simp [parseJsonString_quote, expectChar]

/-- Round trip: deserializing `JSON.stringify({k1: v1, k2: v2})`
reproduces both keys and both values. -/
theorem parseConfigPair_stringify (k1 v1 k2 v2 : String) :
    parseConfigPair (jsonStringifyTwo k1 v1 k2 v2) = some ((k1, v1), (k2, v2)) :=
  parseConfigList_stringify k1 v1 k2 v2

/-! ## Claims -/

/-- Claim C1: for either flow, when the create mutation's result carries a
non-empty user-error list, the handler responds HTTP 500 with the
space-joined error messages and never issues the metafield-set mutation
(Step 2 is not executed). -/
theorem c1_create_user_errors_short_circuit
    (pp : PaymentPayload) (dp : DeliveryPayload) (rec : Option String)
    (msgs : List String) (mo : QueryOutcome MetafieldsSetResult)
    (h : msgs ≠ []) :
    (createPaymentCustomization pp (.ok ⟨rec, some msgs⟩) mo).outcome
        = .responded (.err500 (joinMessages msgs)) ∧
      (createPaymentCustomization pp (.ok ⟨rec, some msgs⟩) mo).metafieldCall = none ∧
      (createDeliveryCustomization dp (.ok ⟨rec, some msgs⟩) mo).outcome
        = .responded (.err500 (joinMessages msgs)) ∧
      (createDeliveryCustomization dp (.ok ⟨rec, some msgs⟩) mo).metafieldCall = none ∧
      Response.statusCode (.err500 (joinMessages msgs)) = 500 := by
  have hlen : 0 < msgs.length := List.length_pos.mpr h
  refine ⟨?_, ?_, ?_, ?_, rfl⟩ <;>
    simp [createPaymentCustomization, createDeliveryCustomization,
      handleUserError, ueArgOfOpt, hlen]

/-- Witness for C1 at a concrete input. -/
theorem c1_create_user_errors_short_circuit_witness :
    (["boom"] : List String) ≠ [] ∧
      (createPaymentCustomization ⟨"fid", "cash", "100"⟩
          (.ok ⟨some "gid", some ["boom"]⟩) (.ok ⟨[], []⟩)).outcome
        = .responded (.err500 (joinMessages ["boom"])) ∧
      (createPaymentCustomization ⟨"fid", "cash", "100"⟩
          (.ok ⟨some "gid", some ["boom"]⟩) (.ok ⟨[], []⟩)).metafieldCall = none ∧
      (createDeliveryCustomization ⟨"fid", "10001", "hi"⟩
          (.ok ⟨some "gid", some ["boom"]⟩) (.ok ⟨[], []⟩)).outcome
        = .responded (.err500 (joinMessages ["boom"])) ∧
      (createDeliveryCustomization ⟨"fid", "10001", "hi"⟩
          (.ok ⟨some "gid", some ["boom"]⟩) (.ok ⟨[], []⟩)).metafieldCall = none ∧
      Response.statusCode (.err500 (joinMessages ["boom"])) = 500 :=
  ⟨by decide,
    c1_create_user_errors_short_circuit ⟨"fid", "cash", "100"⟩ ⟨"fid", "10001", "hi"⟩
      (some "gid") ["boom"] (.ok ⟨[], []⟩) (by decide)⟩

/-- Claim C2 (code bug, at the failing input): the create mutation
succeeds and the `metafieldsSet` result carries the user error `"boom"`,
yet both handlers respond HTTP 200 with an empty body — the Step-2 check
hands the whole result object (which has no `length` property) to
`handleUserError`, so the error list is never read and the claimed HTTP
500 with the joined messages is never sent. -/
theorem c2_metafield_user_errors_ignored :
    (createPaymentCustomization ⟨"fid", "cash", "100"⟩
        (.ok ⟨some "gid", some []⟩) (.ok ⟨[], ["boom"]⟩)).outcome
      = .responded .ok200 ∧
    (createDeliveryCustomization ⟨"fid", "10001", "hello"⟩
        (.ok ⟨some "gid", some []⟩) (.ok ⟨[], ["boom"]⟩)).outcome
      = .responded .ok200 ∧
    Response.statusCode .ok200 = 200 ∧ Response.errorBody .ok200 = none :=
  ⟨rfl, rfl, rfl, rfl⟩

/-- Claim C3, counterexample: at a concrete input whose `metafieldsSet`
result carries the user error `"boom"`, the delivery flow — which the
claim says inspects the nested `userErrors` list — responds HTTP 200 and
does not send the 500 that inspecting the list would produce. -/
theorem c3_delivery_step2_check_counterexample :
    (createDeliveryCustomization ⟨"fid", "10001", "hello"⟩
        (.ok ⟨some "gid", some []⟩) (.ok ⟨[], ["boom"]⟩)).outcome
      = .responded .ok200 ∧
    ¬ (createDeliveryCustomization ⟨"fid", "10001", "hello"⟩
        (.ok ⟨some "gid", some []⟩) (.ok ⟨[], ["boom"]⟩)).outcome
      = .responded (.err500 (joinMessages ["boom"])) :=
  ⟨rfl, by decide⟩

/-- Claim C3 (amended): both flows' Step-2 error checks pass the
top-level `metafieldsSet` result object to `handleUserError` — neither
inspects its nested `userErrors` list — so whatever user errors the
metafield result carries, both flows respond HTTP 200; the create-step
checks are the ones inspecting the nested list. -/
theorem c3_both_step2_checks_use_whole_object
    (pp : PaymentPayload) (dp : DeliveryPayload) (cid : String)
    (m : MetafieldsSetResult) :
    handleUserError (UEArg.obj m) = none ∧
      (createPaymentCustomization pp (.ok ⟨some cid, some []⟩) (.ok m)).outcome
        = .responded .ok200 ∧
      (createDeliveryCustomization dp (.ok ⟨some cid, some []⟩) (.ok m)).outcome
        = .responded .ok200 :=
  ⟨rfl, rfl, rfl⟩

/-- Claim C4: when the create mutation succeeds (empty user-error list,
record present) and the metafield-set mutation succeeds (empty user-error
list), both handlers respond HTTP 200 with an empty body. -/
theorem c4_success_responds_200_empty
    (pp : PaymentPayload) (dp : DeliveryPayload) (cid : String)
    (mids : List String) :
    (createPaymentCustomization pp (.ok ⟨some cid, some []⟩) (.ok ⟨mids, []⟩)).outcome
        = .responded .ok200 ∧
      (createDeliveryCustomization dp (.ok ⟨some cid, some []⟩) (.ok ⟨mids, []⟩)).outcome
        = .responded .ok200 ∧
      Response.statusCode .ok200 = 200 ∧ Response.errorBody .ok200 = none :=
  ⟨rfl, rfl, rfl, rfl⟩

/-- Claim C5: whenever Step 2 runs, the metafield-set call's
`configurationValue` is exactly `JSON.stringify` of the kind-specific
payload fields (payment: `paymentMethodName`/`cartTotal`; delivery:
`zip`/`message`), and deserializing that value reproduces the original
fields. -/
theorem c5_config_value_roundtrip
    (pp : PaymentPayload) (dp : DeliveryPayload) (cid : String)
    (mo : QueryOutcome MetafieldsSetResult) :
    (createPaymentCustomization pp (.ok ⟨some cid, some []⟩) mo).metafieldCall
        = some (paymentMetafieldCall pp cid) ∧
      (paymentMetafieldCall pp cid).value
        = jsonStringifyTwo "paymentMethodName" pp.paymentMethod "cartTotal" pp.cartTotal ∧
      parseConfigPair (paymentMetafieldCall pp cid).value
        = some (("paymentMethodName", pp.paymentMethod), ("cartTotal", pp.cartTotal)) ∧
      (createDeliveryCustomization dp (.ok ⟨some cid, some []⟩) mo).metafieldCall
        = some (deliveryMetafieldCall dp cid) ∧
      (deliveryMetafieldCall dp cid).value
        = jsonStringifyTwo "zip" dp.zip "message" dp.message ∧
      parseConfigPair (deliveryMetafieldCall dp cid).value
        = some (("zip", dp.zip), ("message", dp.message)) := by
  refine ⟨?_, rfl, parseConfigPair_stringify _ _ _ _, ?_, rfl,
    parseConfigPair_stringify _ _ _ _⟩ <;> cases mo <;> rfl

/-- Claim C6: a `GraphqlQueryError` raised during the create call yields
HTTP 500 carrying the exception's `response` detail, with no metafield-set
call; an exception of any other type is not caught and propagates out of
the handler — shown for both flows, at the create call and at the
metafield-set call. -/
theorem c6_transport_error_handling
    (pp : PaymentPayload) (dp : DeliveryPayload) (d : String) (cid : String)
    (mo : QueryOutcome MetafieldsSetResult) :
    createPaymentCustomization pp (.raiseGql d) mo
        = ⟨paymentCreateCall pp, none, .responded (.err500Response d)⟩ ∧
      createDeliveryCustomization dp (.raiseGql d) mo
        = ⟨deliveryCreateCall dp, none, .responded (.err500Response d)⟩ ∧
      Response.statusCode (.err500Response d) = 500 ∧
      Response.errorBody (.err500Response d) = some d ∧
      (createPaymentCustomization pp .raiseOther mo).outcome = .threw .clientOther ∧
      (createDeliveryCustomization dp .raiseOther mo).outcome = .threw .clientOther ∧
      (createPaymentCustomization pp (.ok ⟨some cid, some []⟩) .raiseOther).outcome
        = .threw .clientOther ∧
      (createDeliveryCustomization dp (.ok ⟨some cid, some []⟩) .raiseOther).outcome
        = .threw .clientOther :=
  ⟨rfl, rfl, rfl, rfl, rfl, rfl, rfl, rfl⟩

/-- Claim C7: a `requestName` other than the two recognized ones hits the
`default: return;` branch — neither handler runs, no mutation is issued,
no response is sent, and nothing is thrown. -/
theorem c7_unknown_request_name_noop (n : String) (dr pr : HandlerRun)
    (h1 : n ≠ "createDeliveryCustomization")
    (h2 : n ≠ "createPaymentCustomization") :
    apiGraphqlPost n dr pr = .noop ∧
      (apiGraphqlPost n dr pr).issuedAnyMutation = false ∧
      (apiGraphqlPost n dr pr).sentResponse = none ∧
      (apiGraphqlPost n dr pr).threwError = none := by
  have hno : apiGraphqlPost n dr pr = .noop := by
    simp [apiGraphqlPost, h1, h2]
  exact ⟨hno, by rw [hno]; rfl, by rw [hno]; rfl, by rw [hno]; rfl⟩

/-- Witness for C7 at `requestName = "unknown"`. -/
theorem c7_unknown_request_name_noop_witness :
    ("unknown" : String) ≠ "createDeliveryCustomization" ∧
      ("unknown" : String) ≠ "createPaymentCustomization" ∧
      apiGraphqlPost "unknown" ⟨⟨"f", "t", true⟩, none, .responded .ok200⟩
          ⟨⟨"f", "t", true⟩, none, .responded .ok200⟩ = .noop :=
  ⟨by decide, by decide,
    (c7_unknown_request_name_noop "unknown"
      ⟨⟨"f", "t", true⟩, none, .responded .ok200⟩
      ⟨⟨"f", "t", true⟩, none, .responded .ok200⟩ (by decide) (by decide)).1⟩

/-- Claim C8: for a non-empty user-error list the 500 message is the
error messages joined by a single space in list order; on
`["A invalid", "B required"]` it is `"A invalid B required"`. -/
theorem c8_space_joined_messages (msgs : List String) (h : msgs ≠ []) :
    handleUserError (.arr msgs) = some (String.intercalate " " msgs) ∧
      handleUserError (.arr ["A invalid", "B required"])
        = some "A invalid B required" := by
  have hlen : 0 < msgs.length := List.length_pos.mpr h
  exact ⟨by simp [handleUserError, joinMessages, hlen], rfl⟩

/-- Witness for C8 at the two-error list of the claim. -/
theorem c8_space_joined_messages_witness :
    (["A invalid", "B required"] : List String) ≠ [] ∧
      handleUserError (.arr ["A invalid", "B required"])
        = some (String.intercalate " " ["A invalid", "B required"]) :=
  ⟨by decide, (c8_space_joined_messages ["A invalid", "B required"] (by decide)).1⟩

/-- Claim C9: `handleUserError` sends a 500 and returns `true` exactly
when its argument is truthy with a `length` greater than 0, i.e. is a
non-empty array; for `undefined`, an empty array, or a plain object with
no `length` property (the `metafieldsSet` result object) it sends nothing
and returns `false`, so such inputs count as success. -/
theorem c9_handleUserError_characterization :
    (∀ a : UEArg, (handleUserError a).isSome
        ↔ ∃ msgs, a = UEArg.arr msgs ∧ 0 < msgs.length) ∧
      handleUserError UEArg.undef = none ∧
      handleUserError (UEArg.arr []) = none ∧
      (∀ m : MetafieldsSetResult, handleUserError (UEArg.obj m) = none) := by
  refine ⟨?_, rfl, rfl, fun m => rfl⟩
  intro a
  cases a with
  | undef => simp [handleUserError]
  | arr msgs =>
    by_cases hm : 0 < msgs.length
    · simp [handleUserError, hm]
    · simp [handleUserError, hm]
  | obj m => simp [handleUserError]

/-- Claim C10: when the create response has an empty (or absent)
user-error list but no nested record, both handlers throw the `TypeError`
from `createResult.<kind>Customization.id`; not being a
`GraphqlQueryError`, it is re-thrown past the `catch`, so no response (in
particular no 500) is sent and the metafield-set call is never made. -/
theorem c10_missing_record_typeerror
    (pp : PaymentPayload) (dp : DeliveryPayload)
    (ue : Option (List String)) (mo : QueryOutcome MetafieldsSetResult)
    (h : ue = none ∨ ue = some []) :
    createPaymentCustomization pp (.ok ⟨none, ue⟩) mo
        = ⟨paymentCreateCall pp, none, .threw .typeError⟩ ∧
      createDeliveryCustomization dp (.ok ⟨none, ue⟩) mo
        = ⟨deliveryCreateCall dp, none, .threw .typeError⟩ := by
  rcases h with h | h <;> subst h <;> exact ⟨rfl, rfl⟩

/-- Witness for C10 at a concrete input with an empty user-error list. -/
theorem c10_missing_record_typeerror_witness :
    ((some [] : Option (List String)) = none ∨
        (some [] : Option (List String)) = some []) ∧
      createPaymentCustomization ⟨"fid", "cash", "100"⟩
          (.ok ⟨none, some []⟩) (.ok ⟨[], []⟩)
        = ⟨paymentCreateCall ⟨"fid", "cash", "100"⟩, none, .threw .typeError⟩ :=
  ⟨Or.inr rfl,
    (c10_missing_record_typeerror ⟨"fid", "cash", "100"⟩ ⟨"fid", "10001", "hi"⟩
      (some []) (.ok ⟨[], []⟩) (Or.inr rfl)).1⟩

/-- Witness for the amended C3 at a concrete metafield result carrying a
user error. -/
theorem c3_both_step2_checks_use_whole_object_witness :
    (createDeliveryCustomization ⟨"fid", "10001", "hi"⟩
        (.ok ⟨some "gid", some []⟩) (.ok ⟨[], ["boom"]⟩)).outcome
      = .responded .ok200 :=
  (c3_both_step2_checks_use_whole_object ⟨"fid", "cash", "100"⟩
    ⟨"fid", "10001", "hi"⟩ "gid" ⟨[], ["boom"]⟩).2.2

/-- Witness for C4 at a concrete fully-successful input. -/
theorem c4_success_responds_200_empty_witness :
    (createPaymentCustomization ⟨"fid", "cash", "100"⟩
        (.ok ⟨some "gid", some []⟩) (.ok ⟨[], []⟩)).outcome
      = .responded .ok200 :=
  (c4_success_responds_200_empty ⟨"fid", "cash", "100"⟩
    ⟨"fid", "10001", "hi"⟩ "gid" []).1

/-- Witness for C5: the payment configuration value deserializes back to
the concrete payload fields. -/
theorem c5_config_value_roundtrip_witness :
    parseConfigPair (paymentMetafieldCall ⟨"fid", "cash", "100"⟩ "gid").value
      = some (("paymentMethodName", "cash"), ("cartTotal", "100")) :=
  (c5_config_value_roundtrip ⟨"fid", "cash", "100"⟩ ⟨"fid", "10001", "hi"⟩
    "gid" (.ok ⟨[], []⟩)).2.2.1

/-- Witness for C6 at a concrete `GraphqlQueryError` detail. -/
theorem c6_transport_error_handling_witness :
    createPaymentCustomization ⟨"fid", "cash", "100"⟩
        (.raiseGql "bad query") (.ok ⟨[], []⟩)
      = ⟨paymentCreateCall ⟨"fid", "cash", "100"⟩, none,
          .responded (.err500Response "bad query")⟩ :=
  (c6_transport_error_handling ⟨"fid", "cash", "100"⟩ ⟨"fid", "10001", "hi"⟩
    "bad query" "gid" (.ok ⟨[], []⟩)).1
